import Mathlib

/-!
Verification of the yacht-club rendezvous scheduling model (src/yachtclub.py).

The script builds a declarative constraint model over two families of boolean
decision variables: hosts (one flag per boat) and boats (one visit flag per
(slot, guest, host) triple), posts constraint families C1 through C9, and
maximizes the number of non-host boats.  The definitions below are a direct
shallow embedding of those constraints; an accepted assignment is one
satisfying all of them.
-/

namespace YachtClub

/-- Visit variables: boats[t, i, j] means boat i visits boat j in slot t
(source line 36, cp.boolvar over available_halfhours x n_boats x n_boats). -/
abbrev Visit (T n : Nat) := Fin T → Fin n → Fin n → Bool

/-- Host flags: hosts[b] means boat b is designated a host (source line 40). -/
abbrev Hosts (n : Nat) := Fin n → Bool

/-- C1 (source lines 45-52): for every slot t and boat b, the crews of all
boats visiting b plus the crew of b itself fit within the capacity of b, and
no boat visits itself. -/
abbrev c1_capacity (T n : Nat) (crew_size capacity : Fin n → Nat)
    (boats : Visit T n) : Prop :=
  ∀ (t : Fin T) (b : Fin n),
    ((∑ i, (boats t i b).toNat * crew_size i) + crew_size b ≤ capacity b) ∧
    boats t b b = false

/-- C2 (source lines 54-59): a host receives at least one visit over the whole
schedule; a non-host receives no visit in any slot. -/
abbrev c2_host_guests (T n : Nat) (hosts : Hosts n) (boats : Visit T n) : Prop :=
  ∀ b : Fin n,
    (hosts b = true → 0 < ∑ t, ∑ i, (boats t i b).toNat) ∧
    (hosts b = false → (∑ t, ∑ i, (boats t i b).toNat) = 0)

/-- C3 (source lines 61-63): hosts never visit any boat in any slot. -/
abbrev c3_hosts_stay (T n : Nat) (hosts : Hosts n) (boats : Visit T n) : Prop :=
  ∀ b : Fin n, hosts b = true → (∑ t, ∑ j, (boats t b j).toNat) = 0

/-- C4 (source lines 65-67): every non-host makes at least one visit over the
whole schedule. -/
abbrev c4_guests_visit (T n : Nat) (hosts : Hosts n) (boats : Visit T n) : Prop :=
  ∀ b : Fin n, hosts b = false → 0 < ∑ t, ∑ j, (boats t b j).toNat

/-- C5 (source lines 69-74): for every ordered pair (i, j) with i distinct
from j, if i is a non-host and j is a host, i visits j exactly once across all
slots. -/
abbrev c5_exactly_once (T n : Nat) (hosts : Hosts n) (boats : Visit T n) : Prop :=
  ∀ i j : Fin n, i ≠ j → hosts i = false → hosts j = true →
    (∑ t, (boats t i j).toNat) = 1

/-- C6 (source lines 76-79): a non-host is at no more than one destination in
any single slot. -/
abbrev c6_one_per_slot (T n : Nat) (hosts : Hosts n) (boats : Visit T n) : Prop :=
  ∀ (t : Fin T) (i : Fin n), hosts i = false → (∑ j, (boats t i j).toNat) ≤ 1

/-- C7 (source lines 81-94): two non-hosts co-occur at a shared host in at
most one (slot, host) combination. -/
abbrev c7_meet_once (T n : Nat) (hosts : Hosts n) (boats : Visit T n) : Prop :=
  ∀ i k : Fin n, i < k → hosts i = false → hosts k = false →
    (∑ t, ∑ h, (boats t i h).toNat * (boats t k h).toNat) ≤ 1

/-- C8 (source line 97): at least one host. -/
abbrev c8_some_host (n : Nat) (hosts : Hosts n) : Prop :=
  0 < ∑ b, (hosts b).toNat

/-- C9 (source line 100): not all boats are hosts. -/
abbrev c9_not_all_hosts (n : Nat) (hosts : Hosts n) : Prop :=
  (∑ b, (hosts b).toNat) < n

/-- An accepted assignment: one satisfying all nine constraint families posted
on the model (source lines 45-100). -/
abbrev satisfies (T n : Nat) (crew_size capacity : Fin n → Nat)
    (hosts : Hosts n) (boats : Visit T n) : Prop :=
  c1_capacity T n crew_size capacity boats ∧
  c2_host_guests T n hosts boats ∧
  c3_hosts_stay T n hosts boats ∧
  c4_guests_visit T n hosts boats ∧
  c5_exactly_once T n hosts boats ∧
  c6_one_per_slot T n hosts boats ∧
  c7_meet_once T n hosts boats ∧
  c8_some_host n hosts ∧
  c9_not_all_hosts n hosts

/-- Objective value (source line 105): the number of non-host boats. -/
def guests (n : Nat) (hosts : Hosts n) : Nat := ∑ b, (!hosts b).toNat

/-- A joint assignment of host flags and visit flags. -/
abbrev Assignment (T n : Nat) := Hosts n × Visit T n

/-- Satisfaction as a predicate on joint assignments. -/
abbrev satisfiesA (T n : Nat) (crew_size capacity : Fin n → Nat)
    (a : Assignment T n) : Prop :=
  satisfies T n crew_size capacity a.1 a.2

/-- The model optimum: the largest guest count over all accepted assignments
(0 when the model is infeasible). -/
def optimum (T n : Nat) (crew_size capacity : Fin n → Nat) : Nat :=
  (Finset.univ.filter (satisfiesA T n crew_size capacity)).sup
    (fun a => guests n a.1)

/-- Modelled from the spec: the SearchEngine (the script delegates solving to
an external exact CP solver, so no search code is in src/) returns, on a
feasible instance, an accepted assignment maximizing the guest count. -/
abbrev isOptimal (T n : Nat) (crew_size capacity : Fin n → Nat)
    (a : Assignment T n) : Prop :=
  satisfiesA T n crew_size capacity a ∧
  ∀ a₂ : Assignment T n, satisfiesA T n crew_size capacity a₂ →
    guests n a₂.1 ≤ guests n a.1

instance (T n : Nat) (crew_size capacity : Fin n → Nat) (a : Assignment T n) :
    Decidable (isOptimal T n crew_size capacity a) :=
  @instDecidableAnd _ _
    (inferInstanceAs (Decidable (satisfiesA T n crew_size capacity a)))
    (inferInstanceAs (Decidable (∀ a₂ : Assignment T n,
      satisfiesA T n crew_size capacity a₂ →
        guests n a₂.1 ≤ guests n a.1)))

/-- Model construction as performed by the script (source lines 36-100): it
assembles the variables and the constraint set.  The script contains no
validation of the slot count or the number of boats and no raise statement, so
construction always succeeds and returns the constraint set. -/
def buildModel (T n : Nat) (crew_size capacity : Fin n → Nat) :
    Except String (Hosts n → Visit T n → Prop) :=
  Except.ok (fun hosts boats => satisfies T n crew_size capacity hosts boats)

/-- Concrete feasible two-boat instance used for witnesses: crews [1,1],
capacities [2,2]. -/
def exCrew : Fin 2 → Nat := ![1, 1]

def exCap : Fin 2 → Nat := ![2, 2]

def exHosts : Hosts 2 := ![false, true]

def exBoats : Visit 1 2 := fun _ => ![![false, true], ![false, false]]

/-- Concrete three-boat instance from the spec scenario: crews [5,5,5],
capacities [20,5,5], one slot, boat 0 hosting boats 1 and 2. -/
def exCrew3 : Fin 3 → Nat := ![5, 5, 5]

def exCap3 : Fin 3 → Nat := ![20, 5, 5]

def exHosts3 : Hosts 3 := ![true, false, false]

def exBoats3 : Visit 1 3 :=
  fun _ => ![![false, false, false], ![true, false, false], ![true, false, false]]

/-- Capacities insufficient on one side only: with crews [1,1], boat 0 cannot
accommodate the crew of boat 1 plus its own (1 < 2), yet boat 1 can host
boat 0. -/
def exCapBad : Fin 2 → Nat := ![1, 3]

/-- Larger capacities for the monotonicity witness: boat 1 capacity raised
from 2 to 3. -/
def exCapBig : Fin 2 → Nat := ![2, 3]

/-- A single term of a sum of naturals over Fin is bounded by the sum. -/
theorem term_le_sum {m : Nat} (f : Fin m → Nat) (i : Fin m) : f i ≤ ∑ x, f x :=
  Finset.single_le_sum (fun x _ => Nat.zero_le (f x)) (Finset.mem_univ i)

/-- A member value of a Finset is bounded by the sup of the function. -/
theorem mem_le_sup {α : Type} (s : Finset α) (f : α → Nat) (a : α)
    (h : a ∈ s) : f a ≤ s.sup f :=
  Finset.le_sup h

/-- The concrete two-boat instance is feasible: the accepted-assignment
predicate holds on it. -/
theorem exBoats_satisfies : satisfies 1 2 exCrew exCap exHosts exBoats := by
  decide

/-- The concrete three-boat instance is feasible as well. -/
theorem exBoats3_satisfies : satisfies 1 3 exCrew3 exCap3 exHosts3 exBoats3 := by
  decide

/-- Claim C1: in every accepted assignment, for every ordered pair of distinct
boats (i, j) with i a non-host and j a host, the sum over all slots of the
visit flags from i to j equals exactly one. -/
theorem claim_C1 (T n : Nat) (crew_size capacity : Fin n → Nat)
    (hosts : Hosts n) (boats : Visit T n)
    (h : satisfies T n crew_size capacity hosts boats) :
    ∀ i j : Fin n, i ≠ j → hosts i = false → hosts j = true →
      (∑ t, (boats t i j).toNat) = 1 :=
  h.2.2.2.2.1

theorem claim_C1_witness :
    (∑ t : Fin 1, (exBoats t 0 1).toNat) = 1 :=
  claim_C1 1 2 exCrew exCap exHosts exBoats (by decide) 0 1
    (by decide) (by decide) (by decide)

/-- Claim C2: in every accepted assignment, for every slot t and boat b, the
crew of b plus the crews of all boats visiting b in slot t fit within the
capacity of b, and no boat visits itself in any slot. -/
theorem claim_C2 (T n : Nat) (crew_size capacity : Fin n → Nat)
    (hosts : Hosts n) (boats : Visit T n)
    (h : satisfies T n crew_size capacity hosts boats) :
    ∀ (t : Fin T) (b : Fin n),
      crew_size b + (∑ i, (boats t i b).toNat * crew_size i) ≤ capacity b ∧
      boats t b b = false := by
  intro t b
  obtain ⟨hc, hs⟩ := h.1 t b
  exact ⟨by omega, hs⟩

theorem claim_C2_witness :
    exCrew 1 + (∑ i, (exBoats 0 i 1).toNat * exCrew i) ≤ exCap 1 ∧
    exBoats 0 1 1 = false :=
  claim_C2 1 2 exCrew exCap exHosts exBoats (by decide) 0 1

/-- Claim C3: in every accepted assignment, every host receives at least one
visit over the schedule and makes no visit, while every non-host receives no
visit and makes at least one visit. -/
theorem claim_C3 (T n : Nat) (crew_size capacity : Fin n → Nat)
    (hosts : Hosts n) (boats : Visit T n)
    (h : satisfies T n crew_size capacity hosts boats) :
    ∀ b : Fin n,
      (hosts b = true →
        0 < (∑ t, ∑ i, (boats t i b).toNat) ∧
        (∑ t, ∑ j, (boats t b j).toNat) = 0) ∧
      (hosts b = false →
        (∑ t, ∑ i, (boats t i b).toNat) = 0 ∧
        0 < ∑ t, ∑ j, (boats t b j).toNat) := by
  intro b
  obtain ⟨-, h2, h3, h4, -⟩ := h
  exact ⟨fun hb => ⟨(h2 b).1 hb, h3 b hb⟩, fun hb => ⟨(h2 b).2 hb, h4 b hb⟩⟩

theorem claim_C3_witness :
    (exHosts 1 = true →
      0 < (∑ t : Fin 1, ∑ i, (exBoats t i 1).toNat) ∧
      (∑ t : Fin 1, ∑ j, (exBoats t 1 j).toNat) = 0) ∧
    (exHosts 1 = false →
      (∑ t : Fin 1, ∑ i, (exBoats t i 1).toNat) = 0 ∧
      0 < ∑ t : Fin 1, ∑ j, (exBoats t 1 j).toNat) :=
  claim_C3 1 2 exCrew exCap exHosts exBoats (by decide) 1

/-- Claim C4: in every accepted assignment, every unordered pair of distinct
non-hosts shares a host in the same slot in at most one (slot, host)
combination. -/
theorem claim_C4 (T n : Nat) (crew_size capacity : Fin n → Nat)
    (hosts : Hosts n) (boats : Visit T n)
    (h : satisfies T n crew_size capacity hosts boats) :
    ∀ i k : Fin n, i < k → hosts i = false → hosts k = false →
      (∑ t, ∑ d, (boats t i d).toNat * (boats t k d).toNat) ≤ 1 :=
  h.2.2.2.2.2.2.1

theorem claim_C4_witness :
    (∑ t : Fin 1, ∑ d, (exBoats3 t 1 d).toNat * (exBoats3 t 2 d).toNat) ≤ 1 :=
  claim_C4 1 3 exCrew3 exCap3 exHosts3 exBoats3 (by decide) 1 2
    (by decide) (by decide) (by decide)

/-- Claim C5: in every accepted assignment, for every slot and every non-host
boat i, the sum over destinations of the visit flags of i in that slot is at
most one. -/
theorem claim_C5 (T n : Nat) (crew_size capacity : Fin n → Nat)
    (hosts : Hosts n) (boats : Visit T n)
    (h : satisfies T n crew_size capacity hosts boats) :
    ∀ (t : Fin T) (i : Fin n), hosts i = false →
      (∑ j, (boats t i j).toNat) ≤ 1 :=
  h.2.2.2.2.2.1

theorem claim_C5_witness :
    (∑ j, (exBoats 0 0 j).toNat) ≤ 1 :=
  claim_C5 1 2 exCrew exCap exHosts exBoats (by decide) 0 0 (by decide)

/-- Claim C6: in every accepted assignment the host count is strictly between
0 and n. -/
theorem claim_C6 (T n : Nat) (crew_size capacity : Fin n → Nat)
    (hosts : Hosts n) (boats : Visit T n)
    (h : satisfies T n crew_size capacity hosts boats) :
    0 < (∑ b, (hosts b).toNat) ∧ (∑ b, (hosts b).toNat) < n :=
  ⟨h.2.2.2.2.2.2.2.1, h.2.2.2.2.2.2.2.2⟩

theorem claim_C6_witness :
    0 < (∑ b, (exHosts b).toNat) ∧ (∑ b, (exHosts b).toNat) < 2 :=
  claim_C6 1 2 exCrew exCap exHosts exBoats (by decide)

/-- Claim C7: on a feasible instance, any assignment returned by the solver
(an accepted assignment of maximal guest count) has guest count equal to the
model optimum; consequently two solver runs on the same instance yield the
same guest count. -/
theorem claim_C7 (T n : Nat) (crew_size capacity : Fin n → Nat)
    (a₁ a₂ : Assignment T n)
    (h₁ : isOptimal T n crew_size capacity a₁)
    (h₂ : isOptimal T n crew_size capacity a₂) :
    guests n a₁.1 = optimum T n crew_size capacity ∧
    guests n a₂.1 = guests n a₁.1 := by
  have key : ∀ a : Assignment T n, isOptimal T n crew_size capacity a →
      guests n a.1 = optimum T n crew_size capacity := by
    intro a ha
    have hup : (Finset.univ.filter (satisfiesA T n crew_size capacity)).sup
        (fun x : Assignment T n => guests n x.1) ≤ guests n a.1 :=
      Finset.sup_le fun a₃ ha₃ => ha.2 a₃ (Finset.mem_filter.mp ha₃).2
    have hlo : guests n a.1 ≤
        (Finset.univ.filter (satisfiesA T n crew_size capacity)).sup
          (fun x : Assignment T n => guests n x.1) :=
      mem_le_sup (Finset.univ.filter (satisfiesA T n crew_size capacity))
        (fun x : Assignment T n => guests n x.1) a
        (Finset.mem_filter.mpr ⟨Finset.mem_univ a, ha.1⟩)
    exact le_antisymm hlo hup
  exact ⟨key a₁ h₁, (key a₂ h₂).trans (key a₁ h₁).symm⟩

theorem claim_C7_witness :
    guests 2 (exHosts, exBoats).1 = optimum 1 2 exCrew exCap ∧
    guests 2 (exHosts, exBoats).1 = guests 2 (exHosts, exBoats).1 :=
  claim_C7 1 2 exCrew exCap (exHosts, exBoats) (exHosts, exBoats)
    (by decide) (by decide)

/-- Counterexample to claim C8: with slotCount 0 and a single boat (both
degeneracy conditions hold), model construction still succeeds; the script
performs no validation and raises no structural error. -/
theorem claim_C8_counterexample :
    (buildModel 0 1 (fun _ => 1) (fun _ => 1)).isOk = true := rfl

/-- Claim C8 (amended): model construction never raises on a degenerate
instance (slotCount less than 1 or fewer than 2 boats); instead the
constraint set built for such an instance is unsatisfiable, so the instance
is reported UNSAT at solve time rather than rejected at model-build time. -/
theorem claim_C8 (T n : Nat) (crew_size capacity : Fin n → Nat)
    (h : T < 1 ∨ n < 2) :
    (buildModel T n crew_size capacity).isOk = true ∧
    ∀ hosts boats, ¬ satisfies T n crew_size capacity hosts boats := by
  refine ⟨rfl, fun hosts boats hsat => ?_⟩
  obtain ⟨-, h2, -, -, -, -, -, h8, h9⟩ := hsat
  have h8n : 0 < ∑ b, (hosts b).toNat := h8
  have h9n : (∑ b, (hosts b).toNat) < n := h9
  rcases h with hT | hn
  · have hT0 : T = 0 := by omega
    subst hT0
    obtain ⟨b, -, hb⟩ := Finset.exists_ne_zero_of_sum_ne_zero
      (Nat.pos_iff_ne_zero.mp h8n)
    have hbt : hosts b = true := by
      cases hhb : hosts b
      · rw [hhb] at hb; simp at hb
      · rfl
    have := (h2 b).1 hbt
    simp at this
  · omega

theorem claim_C8_witness :
    ¬ satisfies 0 1 (fun _ => 1) (fun _ => 1) (fun _ => true)
      (fun _ _ _ => false) :=
  (claim_C8 0 1 (fun _ => 1) (fun _ => 1) (by decide)).2
    (fun _ => true) (fun _ _ _ => false)

/-- Counterexample to claim C9: a 2-boat instance in which one boat (boat 0)
cannot accommodate the other crew plus its own, yet the model is satisfiable
(boat 1 hosts boat 0), so the instance is not reported infeasible. -/
theorem claim_C9_counterexample :
    exCapBad 0 < exCrew 1 + exCrew 0 ∧
    satisfies 1 2 exCrew exCapBad exHosts exBoats := by decide

/-- Claim C9 (amended): every 2-boat instance in which neither boat can
accommodate the other crew plus its own is reported infeasible: no
assignment satisfies the constraint set. -/
theorem claim_C9 (T : Nat) (crew_size capacity : Fin 2 → Nat)
    (h0 : capacity 0 < crew_size 1 + crew_size 0)
    (h1 : capacity 1 < crew_size 0 + crew_size 1) :
    ∀ hosts boats, ¬ satisfies T 2 crew_size capacity hosts boats := by
  intro hosts boats hsat
  obtain ⟨hc1, -, -, -, hc5, -, -, h8, h9⟩ := hsat
  have h8n : 0 < ∑ b, (hosts b).toNat := h8
  have h9n : (∑ b, (hosts b).toNat) < 2 := h9
  rw [Fin.sum_univ_two] at h8n h9n
  have visited : ∀ i j : Fin 2, i ≠ j → hosts i = false → hosts j = true →
      crew_size i + crew_size j ≤ capacity j := by
    intro i j hij hi hj
    have hsum := hc5 i j hij hi hj
    obtain ⟨t, -, ht⟩ := Finset.exists_ne_zero_of_sum_ne_zero (by omega :
      (∑ t, (boats t i j).toNat) ≠ 0)
    have hbt : boats t i j = true := by
      cases hb : boats t i j
      · rw [hb] at ht; simp at ht
      · rfl
    have hcap := (hc1 t j).1
    have hsingle : (boats t i j).toNat * crew_size i ≤
        ∑ x, (boats t x j).toNat * crew_size x :=
      term_le_sum (fun x => (boats t x j).toNat * crew_size x) i
    rw [hbt] at hsingle
    simp only [Bool.toNat_true, one_mul] at hsingle
    omega
  cases hh0 : hosts 0 <;> cases hh1 : hosts 1 <;>
    rw [hh0, hh1] at h8n h9n <;> simp at h8n h9n
  · have := visited 0 1 (by decide) hh0 hh1
    omega
  · have := visited 1 0 (by decide) hh1 hh0
    omega

theorem claim_C9_witness :
    ¬ satisfies 1 2 exCrew (fun _ => 0) exHosts exBoats :=
  claim_C9 1 exCrew (fun _ => 0) (by decide) (by decide) exHosts exBoats

/-- Any accepted assignment remains accepted when capacities are enlarged
pointwise: capacities appear only as upper bounds in C1. -/
theorem satisfies_capacity_mono (T n : Nat) (crew_size capacity capacity₂ : Fin n → Nat)
    (hle : ∀ b, capacity b ≤ capacity₂ b) (hosts : Hosts n) (boats : Visit T n)
    (h : satisfies T n crew_size capacity hosts boats) :
    satisfies T n crew_size capacity₂ hosts boats := by
  obtain ⟨h1, hrest⟩ := h
  exact ⟨fun t b => ⟨Nat.le_trans (h1 t b).1 (hle b), (h1 t b).2⟩, hrest⟩

/-- Claim C10: enlarging one boat capacity, all else fixed, never decreases
the model optimum. -/
theorem claim_C10 (T n : Nat) (crew_size capacity capacity₂ : Fin n → Nat)
    (b : Fin n) (hb : capacity b ≤ capacity₂ b)
    (hoth : ∀ j, j ≠ b → capacity₂ j = capacity j) :
    optimum T n crew_size capacity ≤ optimum T n crew_size capacity₂ := by
  have hle : ∀ j, capacity j ≤ capacity₂ j := by
    intro j
    by_cases hj : j = b
    · rw [hj]; exact hb
    · rw [hoth j hj]
  apply Finset.sup_mono
  intro a ha
  rw [Finset.mem_filter] at ha ⊢
  exact ⟨ha.1, satisfies_capacity_mono T n crew_size capacity capacity₂ hle
    a.1 a.2 ha.2⟩

theorem claim_C10_witness :
    optimum 1 2 exCrew exCap ≤ optimum 1 2 exCrew exCapBig :=
  claim_C10 1 2 exCrew exCap exCapBig 1 (by decide) (by decide)

end YachtClub
